import Mathlib

/-!
Shallow embedding of the UFS image layer (`src/ufs_image.c`) and header layer
(`src/ufs_header.c`).

Modelling conventions:
* Machine `uint64_t` arithmetic is `Nat` with an explicit `% 2 ^ 64` wherever
  the C code can overflow (additions, multiplications, and the bit-masking in
  `roundToBoundary`).
* The process state visible to these layers is a `World`: the backing
  filesystem (an association list from path strings to files) together with
  the global status word `ufsErrno`.  Every C function that can touch either
  is translated in explicit state-passing style, returning the new `World`.
* A file-backed `mmap`-ed image is represented structurally as an `Image`:
  the 64-bit length word at offset 0, the `struct ufsHeaderStruct` that
  `ufsHeaderGet` locates at `roundToBoundary(8, alignof(header)) = 8`, and the
  remaining bytes (`rest`).  Because the mapping is `MAP_SHARED`, a write
  through the mapping is modelled as an update of the content of the file in the
  filesystem.
* Fallible system calls that can fail for reasons outside the modelled state
  (`open`, `fstat`, `mmap`, `ftruncate`, `msync`) are driven by explicit
  fault oracles, one `Bool` per syscall, so that every error branch of the C
  code is reachable in the model.  Dereferencing a null pointer is modelled
  as `Option` failure.
* Struct sizes and alignments are those of the C structs on an LP64 platform
  (the target platform of the code): `sizeof(uint64_t) = 8`,
  `sizeof(struct ufsHeaderStruct) = 72` with alignment 8,
  `sizeof(struct ufsFileStruct) = sizeof(struct ufsAreaStruct) = 16` with
  alignment 8, `sizeof(struct ufsNodeStruct) = 48` with alignment 8, and
  `sizeof(char) = _Alignof(char) = 1`.  The system page size
  (`sysconf(_SC_PAGESIZE)`) is passed as an explicit parameter.
-/

/-! ### Constants from `include/ufs_defs.h` -/

def UFS_INDEX_VERSION : Nat := 1

def UFS_MAGIC_NUMBER : Nat := 0x00736675

def UFS_NO_ERROR : Int := 0

def UFS_IMAGE_DOES_NOT_EXIST : Int := -1

def UFS_IMAGE_IS_CORRUPTED : Int := -2

def UFS_VERSION_MISMATCH : Int := -3

def UFS_BAD_CALL : Int := -4

def UFS_CANT_CREATE_FILE : Int := -11

def UFS_UNKNOWN_ERROR : Int := -12

def UFS_IMAGE_TOO_SMALL : Int := -12

def UFS_IMAGE_COULD_NOT_SYNC : Int := -13

/-! ### Struct layout constants (LP64) -/

def sizeofUint64 : Nat := 8

def sizeofUfsHeaderStruct : Nat := 72

def alignofUfsHeaderStruct : Nat := 8

def sizeofUfsFileStruct : Nat := 16

def alignofUfsFileStruct : Nat := 8

def sizeofUfsAreaStruct : Nat := 16

def alignofUfsAreaStruct : Nat := 8

def sizeofUfsNodeStruct : Nat := 48

def alignofUfsNodeStruct : Nat := 8

def sizeofChar : Nat := 1

def alignofChar : Nat := 1

/-! ### Data model -/

/-- `struct ufsHeaderStruct`: magic, version, and the `sizes[4]` / `offsets[4]`
arrays indexed by `UFS_TYPES_FILE, UFS_TYPES_AREA, UFS_TYPES_NODE,
UFS_TYPES_STRING`, flattened into named fields. -/
structure ufsHeaderStruct where
  magicNumber : Nat
  version : Nat
  sizesFile : Nat
  sizesArea : Nat
  sizesNode : Nat
  sizesString : Nat
  offsetsFile : Nat
  offsetsArea : Nat
  offsetsNode : Nat
  offsetsString : Nat
deriving DecidableEq, Repr

/-- The content of a mapped UFS image: the 64-bit length word at offset 0,
the header located at byte offset `roundToBoundary(8, 8) = 8`, and the
remaining bytes of the mapping (tables and string arena). -/
structure Image where
  lenWord : Nat
  header : ufsHeaderStruct
  rest : List Nat
deriving DecidableEq, Repr

/-- A file on disk: its length as reported by `fstat` (`st_size`) and its
content viewed through the image abstraction. -/
structure FsFile where
  length : Nat
  content : Image
deriving DecidableEq, Repr

/-- The process-visible state: the backing filesystem and the global status
word `ufsErrno` from `src/ufs_image.c`. -/
structure World where
  fs : List (String × FsFile)
  errno : Int
deriving DecidableEq, Repr

/-- Path lookup in the modelled filesystem (`access(path, F_OK)` /
`open(path, ...)`). -/
def fsGet : List (String × FsFile) → String → Option FsFile
  | [], _ => none
  | (q, f) :: t, p => if q = p then some f else fsGet t p

/-- Create or replace the file at `p`. -/
def fsSet : List (String × FsFile) → String → FsFile → List (String × FsFile)
  | [], p, f => [(p, f)]
  | (q, g) :: t, p, f => if q = p then (p, f) :: t else (q, g) :: fsSet t p f

/-- An all-zero header, the content of a freshly truncated file. -/
def zeroHeader : ufsHeaderStruct :=
  ⟨0, 0, 0, 0, 0, 0, 0, 0, 0, 0⟩

/-- An all-zero image, the content of a freshly truncated file. -/
def zeroImage : Image :=
  { lenWord := 0, header := zeroHeader, rest := [] }

/-- Fault oracle for `ufsImageOpen`: spurious failures of `open`, `fstat`
and `mmap`. -/
structure OpenFaults where
  openFail : Bool
  fstatFail : Bool
  mmapFail : Bool
deriving DecidableEq, Repr

def noOpenFaults : OpenFaults := ⟨false, false, false⟩

/-- Fault oracle for `ufsImageCreate`: `open` failing with `EACCES`, `open`
failing with another `errno`, `ftruncate` failing, `mmap` failing. -/
structure CreateFaults where
  openEacces : Bool
  openOther : Bool
  truncFail : Bool
  mmapFail : Bool
deriving DecidableEq, Repr

def noCreateFaults : CreateFaults := ⟨false, false, false, false⟩

/-! ### `src/ufs_image.c` -/

/-- `ufsImageOpen` (src/ufs_image.c:24-77), translated branch by branch:
null path → `UFS_BAD_CALL`; `access` fails → `UFS_IMAGE_DOES_NOT_EXIST`;
`open` or `fstat` fails → `UFS_UNKNOWN_ERROR`; `st_size < sizeof(uint64_t)` →
`UFS_IMAGE_TOO_SMALL`; `mmap` fails → `UFS_UNKNOWN_ERROR`; on success the
first 8 bytes of the shared mapping are overwritten with `st_size` and
`ufsErrno := UFS_NO_ERROR`. -/
def ufsImageOpen (w : World) (filePath : Option String) (flt : OpenFaults) :
    World × Option Image :=
  match filePath with
  | none => ({ w with errno := UFS_BAD_CALL }, none)
  | some p =>
    match fsGet w.fs p with
    | none => ({ w with errno := UFS_IMAGE_DOES_NOT_EXIST }, none)
    | some f =>
      if flt.openFail then ({ w with errno := UFS_UNKNOWN_ERROR }, none)
      else if flt.fstatFail then ({ w with errno := UFS_UNKNOWN_ERROR }, none)
      else if f.length < sizeofUint64 then
        ({ w with errno := UFS_IMAGE_TOO_SMALL }, none)
      else if flt.mmapFail then ({ w with errno := UFS_UNKNOWN_ERROR }, none)
      else
        let img : Image := { f.content with lenWord := f.length }
        ({ fs := fsSet w.fs p { f with content := img }, errno := UFS_NO_ERROR },
         some img)

/-- `ufsImageCreate` (src/ufs_image.c:79-122): null path or `size <
sizeof(uint64_t)` → `UFS_BAD_CALL`; `open(O_CREAT|O_RDWR, 0644)` failing with
`EACCES` → `UFS_CANT_CREATE_FILE`, with any other errno → `UFS_BAD_CALL`;
`ftruncate` failing → return `NULL` with `ufsErrno` left unchanged (the C code
sets no status on that branch); `mmap` failing → `UFS_UNKNOWN_ERROR`;
otherwise the file is truncated to exactly `size`, the length word is written
at offset 0 through the shared mapping, and `ufsErrno := UFS_NO_ERROR`. -/
def ufsImageCreate (w : World) (filePath : Option String) (size : Nat)
    (flt : CreateFaults) : World × Option Image :=
  match filePath with
  | none => ({ w with errno := UFS_BAD_CALL }, none)
  | some p =>
    if size < sizeofUint64 then ({ w with errno := UFS_BAD_CALL }, none)
    else if flt.openEacces then ({ w with errno := UFS_CANT_CREATE_FILE }, none)
    else if flt.openOther then ({ w with errno := UFS_BAD_CALL }, none)
    else
      let f0 : FsFile := (fsGet w.fs p).getD { length := 0, content := zeroImage }
      if flt.truncFail then
        ({ w with fs := fsSet w.fs p f0 }, none)
      else
        let f1 : FsFile := { length := size, content := f0.content }
        if flt.mmapFail then
          ({ fs := fsSet w.fs p f1, errno := UFS_UNKNOWN_ERROR }, none)
        else
          let img : Image := { f1.content with lenWord := size }
          ({ fs := fsSet w.fs p { f1 with content := img },
             errno := UFS_NO_ERROR }, some img)

/-- `ufsImageSync` (src/ufs_image.c:124-137): reads the length word, then
`msync(image, size, MS_SYNC)`.  On failure sets
`UFS_IMAGE_COULD_NOT_SYNC` and returns `false`; on success returns `true`
WITHOUT touching `ufsErrno`. -/
def ufsImageSync (w : World) (image : Image) (msyncFail : Bool) :
    World × Bool :=
  let _size := image.lenWord
  if msyncFail then ({ w with errno := UFS_IMAGE_COULD_NOT_SYNC }, false)
  else (w, true)

/-- Reading the 64-bit length word through an image pointer.  A null pointer
(`none`) makes the load fault (undefined behaviour), modelled as `none`. -/
def derefLenWord : Option Image → Option Nat
  | none => none
  | some img => some img.lenWord

/-- `ufsImageFree` (src/ufs_image.c:139-146): unconditionally reads
`*(uint64_t *)image` and then `munmap`s.  The result is `some ()` for a
normal return and `none` when the length-word load faults (null handle).
Neither the filesystem nor `ufsErrno` is touched. -/
def ufsImageFree (w : World) (image : Option Image) : World × Option Unit :=
  match derefLenWord image with
  | none => (w, none)
  | some _size => (w, some ())

/-! ### `src/ufs_header.c` -/

/-- `struct ufsHeaderSizeRequestStruct`: the four requested capacities,
each a `uint64_t`. -/
structure ufsHeaderSizeRequestStruct where
  numFiles : Nat
  numAreas : Nat
  numNodes : Nat
  numStrBytes : Nat
deriving DecidableEq, Repr

/-- `roundToBoundary(val, align) = ((val + (align - 1)) & ~(align - 1))`
(src/ufs_header.c:143-146), in `uint64_t` arithmetic: the addition wraps
modulo `2 ^ 64` and `~` is complement within 64 bits. -/
def roundToBoundary (val align : Nat) : Nat :=
  ((val + (align - 1)) % 2 ^ 64) &&& ((2 ^ 64 - 1) ^^^ ((align - 1) % 2 ^ 64))

/-- `resolveSize` (src/ufs_header.c:117-141): the total image length, computed
in `uint64_t` arithmetic, starting from `sizeof(uint64_t)` and laying the
header and the four tables end to end at their alignments, finally rounding
up to the page size. -/
def resolveSize (pageSize : Nat) (sizes : ufsHeaderSizeRequestStruct) : Nat :=
  let s1 := roundToBoundary sizeofUint64 alignofUfsHeaderStruct
  let s2 := (s1 + sizeofUfsHeaderStruct) % 2 ^ 64
  let s3 := roundToBoundary s2 alignofUfsFileStruct
  let s4 := (s3 + sizeofUfsFileStruct * sizes.numFiles) % 2 ^ 64
  let s5 := roundToBoundary s4 alignofUfsAreaStruct
  let s6 := (s5 + sizeofUfsAreaStruct * sizes.numAreas) % 2 ^ 64
  let s7 := roundToBoundary s6 alignofUfsNodeStruct
  let s8 := (s7 + sizeofUfsNodeStruct * sizes.numNodes) % 2 ^ 64
  let s9 := roundToBoundary s8 alignofChar
  let s10 := (s9 + sizeofChar * sizes.numStrBytes) % 2 ^ 64
  roundToBoundary s10 pageSize

/-- The byte offset at which `ufsHeaderGet` (src/ufs_header.c:73-77) finds the
header: `roundToBoundary(sizeof(uint64_t), _Alignof(struct ufsHeaderStruct))`. -/
def ufsHeaderGetOffset : Nat :=
  roundToBoundary sizeofUint64 alignofUfsHeaderStruct

/-- `ufsHeaderGet`: returns the header portion of the image (the struct that
lives at byte offset `ufsHeaderGetOffset` of the mapping, structurally the
`header` component). -/
def ufsHeaderGet (img : Image) : ufsHeaderStruct :=
  img.header

/-- `mountHeader` (src/ufs_header.c:79-115): writes magic, version, the four
capacities into `sizes[]` and the four table offsets into `offsets[]`,
computing the offsets in `uint64_t` arithmetic exactly as the C code does. -/
def mountHeader (img : Image) (sizes : ufsHeaderSizeRequestStruct) : Image :=
  let o1 := roundToBoundary sizeofUint64 alignofUfsHeaderStruct
  let o2 := (o1 + sizeofUfsHeaderStruct) % 2 ^ 64
  let offFile := roundToBoundary o2 alignofUfsFileStruct
  let o3 := (offFile + sizeofUfsFileStruct * sizes.numFiles) % 2 ^ 64
  let offArea := roundToBoundary o3 alignofUfsAreaStruct
  let o4 := (offArea + sizeofUfsAreaStruct * sizes.numAreas) % 2 ^ 64
  let offNode := roundToBoundary o4 alignofUfsNodeStruct
  let o5 := (offNode + sizeofUfsNodeStruct * sizes.numNodes) % 2 ^ 64
  let offString := roundToBoundary o5 alignofChar
  { img with
    header :=
      { magicNumber := UFS_MAGIC_NUMBER
        version := UFS_INDEX_VERSION
        sizesFile := sizes.numFiles
        sizesArea := sizes.numAreas
        sizesNode := sizes.numNodes
        sizesString := sizes.numStrBytes
        offsetsFile := offFile
        offsetsArea := offArea
        offsetsNode := offNode
        offsetsString := offString } }

/-- `ufsHeaderValidate` (src/ufs_header.c:55-71): reads magic and version
through `ufsHeaderGet`.  Wrong magic → `UFS_IMAGE_IS_CORRUPTED` and `NULL`;
right magic but wrong version → `UFS_VERSION_MISMATCH` and `NULL`; otherwise
the image itself is returned and `ufsErrno` is left untouched.  The function
performs no writes: the filesystem component of the world is never updated. -/
def ufsHeaderValidate (w : World) (img : Image) : World × Option Image :=
  let header := ufsHeaderGet img
  if header.magicNumber ≠ UFS_MAGIC_NUMBER then
    ({ w with errno := UFS_IMAGE_IS_CORRUPTED }, none)
  else if header.version ≠ UFS_INDEX_VERSION then
    ({ w with errno := UFS_VERSION_MISMATCH }, none)
  else (w, some img)

/-- `ufsHeaderInit` (src/ufs_header.c:30-53): rejects a null path, any zero
capacity, and an already-existing path with `UFS_BAD_CALL`; otherwise creates
the image with `ufsImageCreate(path, resolveSize(sizes))`, writes the header
through the shared mapping with `mountHeader`, and returns
`ufsHeaderValidate` of the result. -/
def ufsHeaderInit (pageSize : Nat) (w : World) (path : Option String)
    (sizes : ufsHeaderSizeRequestStruct) (flt : CreateFaults) :
    World × Option Image :=
  match path with
  | none => ({ w with errno := UFS_BAD_CALL }, none)
  | some p =>
    if sizes.numFiles = 0 ∨ sizes.numAreas = 0 ∨ sizes.numNodes = 0 ∨
        sizes.numStrBytes = 0 then
      ({ w with errno := UFS_BAD_CALL }, none)
    else if (fsGet w.fs p).isSome then
      ({ w with errno := UFS_BAD_CALL }, none)
    else
      match ufsImageCreate w (some p) (resolveSize pageSize sizes) flt with
      | (w1, none) => (w1, none)
      | (w1, some img) =>
        let img2 := mountHeader img sizes
        let w2 : World :=
          { w1 with
            fs :=
              match fsGet w1.fs p with
              | some f => fsSet w1.fs p { f with content := img2 }
              | none => w1.fs }
        ufsHeaderValidate w2 img2

/-- The mathematical round-up to a multiple of `a` used to state the layout
computation as the spec describes it. -/
def alignUp (v a : Nat) : Nat :=
  a * ((v + (a - 1)) / a)

/-- Modelled from the spec (§4.2 Init): the total image length described in
the words of the specification — start at 8, align up to the header
alignment, add the header size, then for each table align up to the element
alignment
and add `slot_size × capacity`, finally round up to a page boundary — in
unbounded arithmetic.  Used as the reference point for the refinement claim
about `resolveSize`. -/
def resolveSizeSpec (pageSize : Nat) (sizes : ufsHeaderSizeRequestStruct) : Nat :=
  let a := alignUp sizeofUint64 alignofUfsHeaderStruct + sizeofUfsHeaderStruct
  let b := alignUp a alignofUfsFileStruct + sizeofUfsFileStruct * sizes.numFiles
  let c := alignUp b alignofUfsAreaStruct + sizeofUfsAreaStruct * sizes.numAreas
  let d := alignUp c alignofUfsNodeStruct + sizeofUfsNodeStruct * sizes.numNodes
  let e := alignUp d alignofChar + sizeofChar * sizes.numStrBytes
  alignUp e pageSize

/-! ### Arithmetic facts about `roundToBoundary` and `alignUp` -/

lemma land_highmask_shift (x k K : Nat) (hk : k ≤ K) (hx : x < 2 ^ K) :
    x &&& ((2 ^ K - 1) ^^^ (2 ^ k - 1)) = (x >>> k) <<< k := by
  apply Nat.eq_of_testBit_eq
  intro i
  simp only [Nat.testBit_and, Nat.testBit_xor, Nat.testBit_two_pow_sub_one,
    Nat.testBit_shiftLeft, Nat.testBit_shiftRight]
  rcases lt_or_le i k with h1 | h1
  · have h2 : i < K := lt_of_lt_of_le h1 hk
    simp [h1, h2, Nat.not_le.2 h1]
  · rcases lt_or_le i K with h2 | h2
    · have h3 : ¬ i < k := Nat.not_lt.2 h1
      simp [h2, h3, h1, Nat.add_sub_cancel' h1]
    · have h3 : ¬ i < k := Nat.not_lt.2 (le_trans hk h2)
      have h4 : ¬ i < K := Nat.not_lt.2 h2
      have h5 : x.testBit (k + (i - k)) = false := by
        apply Nat.testBit_lt_two_pow
        calc x < 2 ^ K := hx
          _ ≤ 2 ^ (k + (i - k)) := Nat.pow_le_pow_right (by norm_num) (by omega)
      simp [h3, h4, h5]

lemma shiftRight_shiftLeft_eq (x k : Nat) :
    (x >>> k) <<< k = 2 ^ k * (x / 2 ^ k) := by
  simp [Nat.shiftLeft_eq, Nat.shiftRight_eq_div_pow, Nat.mul_comm]

/-- When the alignment is a power of two and the addition does not wrap, the
bit-masking trick of `roundToBoundary` computes the mathematical round-up. -/
lemma roundToBoundary_two_pow (v k : Nat) (hk : k ≤ 64)
    (hv : v + (2 ^ k - 1) < 2 ^ 64) :
    roundToBoundary v (2 ^ k) = alignUp v (2 ^ k) := by
  unfold roundToBoundary
  have h1 : (2 ^ k - 1) % 2 ^ 64 = 2 ^ k - 1 := Nat.mod_eq_of_lt (by omega)
  rw [h1, Nat.mod_eq_of_lt hv, land_highmask_shift _ k 64 hk hv,
    shiftRight_shiftLeft_eq]
  rfl

lemma le_alignUp (v a : Nat) (ha : 0 < a) : v ≤ alignUp v a := by
  have h := Nat.div_add_mod (v + (a - 1)) a
  have h2 : (v + (a - 1)) % a < a := Nat.mod_lt _ ha
  unfold alignUp
  omega

lemma alignUp_le (v a : Nat) (ha : 0 < a) : alignUp v a ≤ v + (a - 1) := by
  have h := Nat.div_add_mod (v + (a - 1)) a
  have h2 : (v + (a - 1)) % a < a := Nat.mod_lt _ ha
  unfold alignUp
  omega

lemma alignUp_dvd (v a : Nat) : a ∣ alignUp v a := Dvd.intro _ rfl

lemma alignUp_of_dvd (v a : Nat) (ha : 0 < a) (h : a ∣ v) : alignUp v a = v := by
  obtain ⟨c, rfl⟩ := h
  unfold alignUp
  rw [Nat.mul_add_div ha, Nat.div_eq_of_lt (by omega), Nat.add_zero]

/-- `roundToBoundary` at alignment 8 is the identity on multiples of 8 that do
not make the addition wrap. -/
lemma roundToBoundary_eight (v : Nat) (hv : v + 7 < 2 ^ 64) (hd : 8 ∣ v) :
    roundToBoundary v 8 = v := by
  have h8 : (8 : Nat) = 2 ^ 3 := by norm_num
  have hb : v + (2 ^ 3 - 1) < 2 ^ 64 := by norm_num; omega
  rw [h8, roundToBoundary_two_pow v 3 (by norm_num) hb,
    alignUp_of_dvd v (2 ^ 3) (by norm_num) (by rw [← h8]; exact hd)]

/-- `roundToBoundary` at alignment 1 is the identity below `2 ^ 64`. -/
lemma roundToBoundary_one (v : Nat) (hv : v < 2 ^ 64) :
    roundToBoundary v 1 = v := by
  have h1 : (1 : Nat) = 2 ^ 0 := by norm_num
  have hb : v + (2 ^ 0 - 1) < 2 ^ 64 := by norm_num; omega
  rw [h1, roundToBoundary_two_pow v 0 (by norm_num) hb,
    alignUp_of_dvd v (2 ^ 0) (by norm_num) (by norm_num)]

/-! ### Filesystem association-list lemmas -/

lemma fsGet_fsSet_self (fs : List (String × FsFile)) (p : String) (f : FsFile) :
    fsGet (fsSet fs p f) p = some f := by
  induction fs with
  | nil => simp [fsSet, fsGet]
  | cons hd t ih =>
    obtain ⟨q, g⟩ := hd
    by_cases h : q = p <;> simp [fsSet, fsGet, h, ih]

lemma fsSet_fsSet (fs : List (String × FsFile)) (p : String) (f g : FsFile) :
    fsSet (fsSet fs p f) p g = fsSet fs p g := by
  induction fs with
  | nil => simp [fsSet]
  | cons hd t ih =>
    obtain ⟨q, h0⟩ := hd
    by_cases h : q = p <;> simp [fsSet, h, ih]

/-! ### Closed forms under no-overflow bounds -/

lemma mountHeader_lenWord (img : Image) (s : ufsHeaderSizeRequestStruct) :
    (mountHeader img s).lenWord = img.lenWord := rfl

lemma mountHeader_rest (img : Image) (s : ufsHeaderSizeRequestStruct) :
    (mountHeader img s).rest = img.rest := rfl

lemma mountHeader_magic (img : Image) (s : ufsHeaderSizeRequestStruct) :
    (mountHeader img s).header.magicNumber = UFS_MAGIC_NUMBER := rfl

lemma mountHeader_version (img : Image) (s : ufsHeaderSizeRequestStruct) :
    (mountHeader img s).header.version = UFS_INDEX_VERSION := rfl

lemma mountHeader_sizes (img : Image) (s : ufsHeaderSizeRequestStruct) :
    (mountHeader img s).header.sizesFile = s.numFiles ∧
    (mountHeader img s).header.sizesArea = s.numAreas ∧
    (mountHeader img s).header.sizesNode = s.numNodes ∧
    (mountHeader img s).header.sizesString = s.numStrBytes :=
  ⟨rfl, rfl, rfl, rfl⟩

lemma pow_le_pow_32 (k : Nat) (hk : k ≤ 32) : (2 : Nat) ^ k ≤ 2 ^ 32 :=
  Nat.pow_le_pow_right (by norm_num) hk

/-- Under the no-overflow bounds, `resolveSize` computes the mathematical
round-up of the end of the string arena to the page size. -/
lemma resolveSize_closed (k : Nat) (s : ufsHeaderSizeRequestStruct)
    (hk : k ≤ 32)
    (hb1 : s.numFiles ≤ 2 ^ 50) (hb2 : s.numAreas ≤ 2 ^ 50)
    (hb3 : s.numNodes ≤ 2 ^ 50) (hb4 : s.numStrBytes ≤ 2 ^ 50) :
    resolveSize (2 ^ k) s =
      alignUp (80 + 16 * s.numFiles + 16 * s.numAreas + 48 * s.numNodes
        + s.numStrBytes) (2 ^ k) := by
  have e50 : (2 : Nat) ^ 50 = 1125899906842624 := by norm_num
  rw [e50] at hb1 hb2 hb3 hb4
  have hp := pow_le_pow_32 k hk
  rw [show (2 : Nat) ^ 32 = 4294967296 from by norm_num] at hp
  simp only [resolveSize, sizeofUint64, sizeofUfsHeaderStruct,
    alignofUfsHeaderStruct, sizeofUfsFileStruct, alignofUfsFileStruct,
    sizeofUfsAreaStruct, alignofUfsAreaStruct, sizeofUfsNodeStruct,
    alignofUfsNodeStruct, sizeofChar, alignofChar]
  rw [show roundToBoundary 8 8 = 8 from by decide]
  rw [show ((8 : Nat) + 72) % 2 ^ 64 = 80 from by decide]
  rw [show roundToBoundary 80 8 = 80 from by decide]
  rw [Nat.mod_eq_of_lt (a := 80 + 16 * s.numFiles) (b := 2 ^ 64) (by omega)]
  rw [roundToBoundary_eight (80 + 16 * s.numFiles) (by omega)
    ⟨10 + 2 * s.numFiles, by ring⟩]
  rw [Nat.mod_eq_of_lt (a := 80 + 16 * s.numFiles + 16 * s.numAreas)
    (b := 2 ^ 64) (by omega)]
  rw [roundToBoundary_eight (80 + 16 * s.numFiles + 16 * s.numAreas)
    (by omega) ⟨10 + 2 * s.numFiles + 2 * s.numAreas, by ring⟩]
  rw [Nat.mod_eq_of_lt
    (a := 80 + 16 * s.numFiles + 16 * s.numAreas + 48 * s.numNodes)
    (b := 2 ^ 64) (by omega)]
  rw [roundToBoundary_one
    (80 + 16 * s.numFiles + 16 * s.numAreas + 48 * s.numNodes) (by omega)]
  rw [Nat.one_mul]
  rw [Nat.mod_eq_of_lt
    (a := 80 + 16 * s.numFiles + 16 * s.numAreas + 48 * s.numNodes
      + s.numStrBytes)
    (b := 2 ^ 64) (by omega)]
  rw [roundToBoundary_two_pow
    (80 + 16 * s.numFiles + 16 * s.numAreas + 48 * s.numNodes
      + s.numStrBytes) k (by omega) (by omega)]

/-- `resolveSizeSpec` reaches the same closed form, with no side conditions
because its arithmetic is unbounded. -/
lemma resolveSizeSpec_closed (pageSize : Nat) (s : ufsHeaderSizeRequestStruct) :
    resolveSizeSpec pageSize s =
      alignUp (80 + 16 * s.numFiles + 16 * s.numAreas + 48 * s.numNodes
        + s.numStrBytes) pageSize := by
  simp only [resolveSizeSpec, sizeofUint64, sizeofUfsHeaderStruct,
    alignofUfsHeaderStruct, sizeofUfsFileStruct, alignofUfsFileStruct,
    sizeofUfsAreaStruct, alignofUfsAreaStruct, sizeofUfsNodeStruct,
    alignofUfsNodeStruct, sizeofChar, alignofChar]
  rw [show alignUp 8 8 + 72 = 80 from by decide]
  rw [show alignUp 80 8 = 80 from by decide]
  rw [alignUp_of_dvd (80 + 16 * s.numFiles) 8 (by norm_num)
    ⟨10 + 2 * s.numFiles, by ring⟩]
  rw [alignUp_of_dvd (80 + 16 * s.numFiles + 16 * s.numAreas) 8 (by norm_num)
    ⟨10 + 2 * s.numFiles + 2 * s.numAreas, by ring⟩]
  rw [alignUp_of_dvd
    (80 + 16 * s.numFiles + 16 * s.numAreas + 48 * s.numNodes) 1
    (by norm_num) (Nat.one_dvd _)]
  rw [Nat.one_mul]

/-- The offsets that `mountHeader` records, under the no-overflow bounds. -/
lemma mountHeader_offsets (img : Image) (s : ufsHeaderSizeRequestStruct)
    (hb1 : s.numFiles ≤ 2 ^ 50) (hb2 : s.numAreas ≤ 2 ^ 50)
    (hb3 : s.numNodes ≤ 2 ^ 50) :
    (mountHeader img s).header.offsetsFile = 80 ∧
    (mountHeader img s).header.offsetsArea = 80 + 16 * s.numFiles ∧
    (mountHeader img s).header.offsetsNode =
      80 + 16 * s.numFiles + 16 * s.numAreas ∧
    (mountHeader img s).header.offsetsString =
      80 + 16 * s.numFiles + 16 * s.numAreas + 48 * s.numNodes := by
  have e50 : (2 : Nat) ^ 50 = 1125899906842624 := by norm_num
  rw [e50] at hb1 hb2 hb3
  simp only [mountHeader, sizeofUint64, sizeofUfsHeaderStruct,
    alignofUfsHeaderStruct, sizeofUfsFileStruct, alignofUfsFileStruct,
    sizeofUfsAreaStruct, alignofUfsAreaStruct, sizeofUfsNodeStruct,
    alignofUfsNodeStruct, sizeofChar, alignofChar]
  rw [show roundToBoundary 8 8 = 8 from by decide]
  rw [show ((8 : Nat) + 72) % 2 ^ 64 = 80 from by decide]
  rw [show roundToBoundary 80 8 = 80 from by decide]
  rw [Nat.mod_eq_of_lt (a := 80 + 16 * s.numFiles) (b := 2 ^ 64) (by omega)]
  rw [roundToBoundary_eight (80 + 16 * s.numFiles) (by omega)
    ⟨10 + 2 * s.numFiles, by ring⟩]
  rw [Nat.mod_eq_of_lt (a := 80 + 16 * s.numFiles + 16 * s.numAreas)
    (b := 2 ^ 64) (by omega)]
  rw [roundToBoundary_eight (80 + 16 * s.numFiles + 16 * s.numAreas)
    (by omega) ⟨10 + 2 * s.numFiles + 2 * s.numAreas, by ring⟩]
  rw [Nat.mod_eq_of_lt
    (a := 80 + 16 * s.numFiles + 16 * s.numAreas + 48 * s.numNodes)
    (b := 2 ^ 64) (by omega)]
  rw [roundToBoundary_one
    (80 + 16 * s.numFiles + 16 * s.numAreas + 48 * s.numNodes) (by omega)]
  exact ⟨rfl, rfl, rfl, rfl⟩

/-! ### Behavioural helper lemmas for the image and header operations -/

lemma ufsImageCreate_fresh (fs : List (String × FsFile)) (e : Int) (p : String)
    (size : Nat) (h : fsGet fs p = none) (h8 : sizeofUint64 ≤ size) :
    ufsImageCreate ⟨fs, e⟩ (some p) size noCreateFaults =
      (⟨fsSet fs p ⟨size, { zeroImage with lenWord := size }⟩, UFS_NO_ERROR⟩,
       some { zeroImage with lenWord := size }) := by
  simp [ufsImageCreate, noCreateFaults, h, Nat.not_lt.2 h8]

lemma ufsHeaderInit_fresh (pageSize : Nat) (fs : List (String × FsFile))
    (e : Int) (p : String) (s : ufsHeaderSizeRequestStruct)
    (h1 : s.numFiles ≠ 0) (h2 : s.numAreas ≠ 0) (h3 : s.numNodes ≠ 0)
    (h4 : s.numStrBytes ≠ 0) (hfresh : fsGet fs p = none)
    (h8 : sizeofUint64 ≤ resolveSize pageSize s) :
    ufsHeaderInit pageSize ⟨fs, e⟩ (some p) s noCreateFaults =
      (⟨fsSet fs p
          ⟨resolveSize pageSize s,
           mountHeader { zeroImage with lenWord := resolveSize pageSize s } s⟩,
        UFS_NO_ERROR⟩,
       some (mountHeader
         { zeroImage with lenWord := resolveSize pageSize s } s)) := by
  simp only [ufsHeaderInit, h1, h2, h3, h4, hfresh, Option.isSome_none,
    Bool.false_eq_true, if_false, false_or, or_false, if_neg, not_false_iff]
  rw [ufsImageCreate_fresh fs e p (resolveSize pageSize s) hfresh h8]
  simp [fsGet_fsSet_self, fsSet_fsSet,
    ufsHeaderValidate, ufsHeaderGet, mountHeader_magic, mountHeader_version]

lemma ufsHeaderValidate_some_inv (w : World) (img : Image) (w1 : World)
    (img1 : Image) (h : ufsHeaderValidate w img = (w1, some img1)) :
    w1 = w ∧ img1 = img := by
  simp only [ufsHeaderValidate, ufsHeaderGet] at h
  split_ifs at h with hm hv
  · exact absurd (congrArg Prod.snd h) (by simp)
  · exact absurd (congrArg Prod.snd h) (by simp)
  · have h1 := congrArg Prod.fst h
    have h2 := congrArg Prod.snd h
    simp at h1 h2
    exact ⟨h1.symm, h2.symm⟩

lemma ufsImageCreate_success_inv (w : World) (p : String) (size : Nat)
    (flt : CreateFaults) (w1 : World) (img : Image)
    (h : ufsImageCreate w (some p) size flt = (w1, some img)) :
    img.lenWord = size ∧ w1.errno = UFS_NO_ERROR ∧
    fsGet w1.fs p = some ⟨size, img⟩ := by
  simp only [ufsImageCreate] at h
  split_ifs at h with hs he ho ht hm
  · exact absurd (congrArg Prod.snd h) (by simp)
  · exact absurd (congrArg Prod.snd h) (by simp)
  · exact absurd (congrArg Prod.snd h) (by simp)
  · exact absurd (congrArg Prod.snd h) (by simp)
  · exact absurd (congrArg Prod.snd h) (by simp)
  · have h1 := congrArg Prod.fst h
    have h2 := congrArg Prod.snd h
    simp only [] at h1 h2
    refine ⟨?_, ?_, ?_⟩
    · rw [← Option.some_inj.1 h2]
    · rw [← h1]
    · rw [← h1, ← Option.some_inj.1 h2]
      exact fsGet_fsSet_self _ _ _

lemma ufsHeaderInit_success_inv (pageSize : Nat) (w : World) (p : String)
    (s : ufsHeaderSizeRequestStruct) (flt : CreateFaults) (w1 : World)
    (img : Image)
    (h : ufsHeaderInit pageSize w (some p) s flt = (w1, some img)) :
    img.lenWord = resolveSize pageSize s ∧ w1.errno = UFS_NO_ERROR ∧
    fsGet w1.fs p = some ⟨resolveSize pageSize s, img⟩ := by
  simp only [ufsHeaderInit] at h
  split_ifs at h with hz he
  · exact absurd (congrArg Prod.snd h) (by simp)
  · exact absurd (congrArg Prod.snd h) (by simp)
  · rcases hC : ufsImageCreate w (some p) (resolveSize pageSize s) flt with
      ⟨wC, rC⟩
    rw [hC] at h
    match rC, h with
    | none, h => exact absurd (congrArg Prod.snd h) (by simp)
    | some imgC, h =>
      obtain ⟨hlen, herr, hget⟩ :=
        ufsImageCreate_success_inv w p (resolveSize pageSize s) flt wC imgC hC
      simp only [hget] at h
      obtain ⟨hw, hi⟩ := ufsHeaderValidate_some_inv _ _ _ _ h
      subst hw hi
      refine ⟨?_, herr, ?_⟩
      · rw [mountHeader_lenWord, hlen]
      · exact fsGet_fsSet_self _ _ _

lemma ufsImageOpen_no_file (w : World) (p : String) (flt : OpenFaults)
    (h : fsGet w.fs p = none) :
    ufsImageOpen w (some p) flt =
      ({ w with errno := UFS_IMAGE_DOES_NOT_EXIST }, none) := by
  simp [ufsImageOpen, h]

lemma ufsImageOpen_too_small (w : World) (p : String) (f : FsFile)
    (flt : OpenFaults) (h : fsGet w.fs p = some f)
    (ho : flt.openFail = false) (hf : flt.fstatFail = false)
    (hs : f.length < sizeofUint64) :
    ufsImageOpen w (some p) flt =
      ({ w with errno := UFS_IMAGE_TOO_SMALL }, none) := by
  simp [ufsImageOpen, h, ho, hf, hs]

lemma ufsImageOpen_io_fault (w : World) (p : String) (f : FsFile)
    (flt : OpenFaults) (h : fsGet w.fs p = some f)
    (hflt : flt.openFail = true ∨ flt.fstatFail = true ∨
      (sizeofUint64 ≤ f.length ∧ flt.mmapFail = true)) :
    ufsImageOpen w (some p) flt =
      ({ w with errno := UFS_UNKNOWN_ERROR }, none) := by
  rcases hflt with h1 | h1 | ⟨h1, h2⟩
  · simp [ufsImageOpen, h, h1]
  · cases ho : flt.openFail <;> simp [ufsImageOpen, h, h1, ho]
  · cases ho : flt.openFail <;> cases hf : flt.fstatFail <;>
      simp [ufsImageOpen, h, ho, hf, h2, Nat.not_lt.2 h1]

lemma ufsImageOpen_success (w : World) (p : String) (f : FsFile)
    (flt : OpenFaults) (h : fsGet w.fs p = some f)
    (ho : flt.openFail = false) (hf : flt.fstatFail = false)
    (hm : flt.mmapFail = false) (hs : sizeofUint64 ≤ f.length) :
    ufsImageOpen w (some p) flt =
      (⟨fsSet w.fs p ⟨f.length, { f.content with lenWord := f.length }⟩,
        UFS_NO_ERROR⟩,
       some { f.content with lenWord := f.length }) := by
  simp [ufsImageOpen, h, ho, hf, hm, Nat.not_lt.2 hs]

lemma ufsImageOpen_errno_indep (fs : List (String × FsFile)) (e : Int)
    (path : Option String) (flt : OpenFaults) :
    ufsImageOpen ⟨fs, e⟩ path flt = ufsImageOpen ⟨fs, 0⟩ path flt := by
  cases path with
  | none => rfl
  | some p =>
    simp only [ufsImageOpen]

lemma ufsImageCreate_errno_indep (fs : List (String × FsFile)) (e : Int)
    (path : Option String) (size : Nat) (flt : CreateFaults)
    (h : flt.truncFail = false) :
    ufsImageCreate ⟨fs, e⟩ path size flt =
      ufsImageCreate ⟨fs, 0⟩ path size flt := by
  cases path with
  | none => rfl
  | some p =>
    simp only [ufsImageCreate, h, Bool.false_eq_true, if_false]

lemma ufsHeaderInit_errno_indep (pageSize : Nat) (fs : List (String × FsFile))
    (e : Int) (path : Option String) (s : ufsHeaderSizeRequestStruct)
    (flt : CreateFaults) (h : flt.truncFail = false) :
    ufsHeaderInit pageSize ⟨fs, e⟩ path s flt =
      ufsHeaderInit pageSize ⟨fs, 0⟩ path s flt := by
  cases path with
  | none => rfl
  | some p =>
    simp only [ufsHeaderInit]
    rw [ufsImageCreate_errno_indep fs e (some p) (resolveSize pageSize s) flt h]

lemma ufsImageCreate_truncFail (fs : List (String × FsFile)) (e : Int)
    (p : String) (size : Nat) (flt : CreateFaults)
    (h8 : sizeofUint64 ≤ size) (he : flt.openEacces = false)
    (ho : flt.openOther = false) (ht : flt.truncFail = true) :
    ufsImageCreate ⟨fs, e⟩ (some p) size flt =
      (⟨fsSet fs p ((fsGet fs p).getD ⟨0, zeroImage⟩), e⟩, none) := by
  simp [ufsImageCreate, Nat.not_lt.2 h8, he, ho, ht]

lemma ufsHeaderInit_truncFail (pageSize : Nat) (fs : List (String × FsFile))
    (e : Int) (p : String) (s : ufsHeaderSizeRequestStruct)
    (flt : CreateFaults)
    (h1 : s.numFiles ≠ 0) (h2 : s.numAreas ≠ 0) (h3 : s.numNodes ≠ 0)
    (h4 : s.numStrBytes ≠ 0) (hfresh : fsGet fs p = none)
    (h8 : sizeofUint64 ≤ resolveSize pageSize s)
    (he : flt.openEacces = false) (ho : flt.openOther = false)
    (ht : flt.truncFail = true) :
    ufsHeaderInit pageSize ⟨fs, e⟩ (some p) s flt =
      (⟨fsSet fs p ⟨0, zeroImage⟩, e⟩, none) := by
  simp only [ufsHeaderInit, h1, h2, h3, h4, hfresh, Option.isSome_none,
    Bool.false_eq_true, if_false, false_or, or_false, if_neg, not_false_iff]
  rw [ufsImageCreate_truncFail fs e p (resolveSize pageSize s) flt h8 he ho ht]
  rw [hfresh]
  rfl

lemma ufsHeaderValidate_bad_magic (w : World) (img : Image)
    (h : img.header.magicNumber ≠ UFS_MAGIC_NUMBER) :
    ufsHeaderValidate w img =
      ({ w with errno := UFS_IMAGE_IS_CORRUPTED }, none) := by
  simp [ufsHeaderValidate, ufsHeaderGet, h]

lemma ufsHeaderValidate_bad_version (w : World) (img : Image)
    (hm : img.header.magicNumber = UFS_MAGIC_NUMBER)
    (hv : img.header.version ≠ UFS_INDEX_VERSION) :
    ufsHeaderValidate w img =
      ({ w with errno := UFS_VERSION_MISMATCH }, none) := by
  simp [ufsHeaderValidate, ufsHeaderGet, hm, hv]

lemma ufsHeaderValidate_ok (w : World) (img : Image)
    (hm : img.header.magicNumber = UFS_MAGIC_NUMBER)
    (hv : img.header.version = UFS_INDEX_VERSION) :
    ufsHeaderValidate w img = (w, some img) := by
  simp [ufsHeaderValidate, ufsHeaderGet, hm, hv]

lemma ufsHeaderValidate_fs_frame (w : World) (img : Image) :
    (ufsHeaderValidate w img).1.fs = w.fs := by
  simp only [ufsHeaderValidate, ufsHeaderGet]
  split_ifs <;> rfl

lemma ufsHeaderValidate_none_or_self (w : World) (img : Image) :
    (ufsHeaderValidate w img).2 = none ∨
    (ufsHeaderValidate w img).2 = some img := by
  simp only [ufsHeaderValidate, ufsHeaderGet]
  split_ifs <;> simp

/-! ### Claim C1 -/

/-- Claim C1, counterexample to the universal statement: all four capacities
strictly positive and a fresh path, yet `ufsHeaderInit` fails, because the
`uint64_t` length computation in `resolveSize` wraps around: with capacities
`(2 ^ 59, 2 ^ 59, 1, 2 ^ 64 - 4128)` the computed image length is 0, which
`ufsImageCreate` rejects with `UFS_BAD_CALL`. -/
theorem ufsHeaderInit_overflow_fails :
    0 < 2 ^ 59 ∧ 0 < 1 ∧ 0 < 2 ^ 64 - 4128 ∧
    fsGet [] "img" = none ∧
    resolveSize 4096 ⟨2 ^ 59, 2 ^ 59, 1, 2 ^ 64 - 4128⟩ = 0 ∧
    (ufsHeaderInit 4096 ⟨[], 0⟩ (some "img")
      ⟨2 ^ 59, 2 ^ 59, 1, 2 ^ 64 - 4128⟩ noCreateFaults).2 = none ∧
    (ufsHeaderInit 4096 ⟨[], 0⟩ (some "img")
      ⟨2 ^ 59, 2 ^ 59, 1, 2 ^ 64 - 4128⟩ noCreateFaults).1.errno
      = UFS_BAD_CALL := by
  refine ⟨by norm_num, by norm_num, by norm_num, rfl, by decide, by decide,
    by decide⟩

/-- Claim C1 (amended with no-overflow bounds): for every size request whose
four capacities are strictly positive and at most `2 ^ 50`, a page size that
is a power of two at most `2 ^ 32`, and every path at which no file exists,
`ufsHeaderInit` succeeds with `UFS_NO_ERROR`, a subsequent `ufsImageOpen`
returns the very same image, its header (via `ufsHeaderGet`) carries the four
requested capacities in `sizes[]`, `ufsHeaderValidate` returns the image
unchanged, and the length-word overwrite performed by `ufsImageOpen` disturbs
no header field (the whole image is unchanged). -/
theorem ufsHeaderInit_open_roundTrip (fs : List (String × FsFile)) (e : Int)
    (p : String) (s : ufsHeaderSizeRequestStruct) (pageSize k : Nat)
    (hp : pageSize = 2 ^ k) (hk : k ≤ 32)
    (h1 : 0 < s.numFiles) (h2 : 0 < s.numAreas) (h3 : 0 < s.numNodes)
    (h4 : 0 < s.numStrBytes)
    (hb1 : s.numFiles ≤ 2 ^ 50) (hb2 : s.numAreas ≤ 2 ^ 50)
    (hb3 : s.numNodes ≤ 2 ^ 50) (hb4 : s.numStrBytes ≤ 2 ^ 50)
    (hfresh : fsGet fs p = none) :
    ∃ w1 img1, ufsHeaderInit pageSize ⟨fs, e⟩ (some p) s noCreateFaults
        = (w1, some img1)
      ∧ w1.errno = UFS_NO_ERROR
      ∧ ∃ w2 img2, ufsImageOpen w1 (some p) noOpenFaults = (w2, some img2)
        ∧ img2 = img1
        ∧ ufsHeaderGet img2 = ufsHeaderGet img1
        ∧ (ufsHeaderGet img2).sizesFile = s.numFiles
        ∧ (ufsHeaderGet img2).sizesArea = s.numAreas
        ∧ (ufsHeaderGet img2).sizesNode = s.numNodes
        ∧ (ufsHeaderGet img2).sizesString = s.numStrBytes
        ∧ ufsHeaderValidate w2 img2 = (w2, some img2) := by
  subst hp
  have hRS := resolveSize_closed k s hk hb1 hb2 hb3 hb4
  have hRS8 : sizeofUint64 ≤ resolveSize (2 ^ k) s := by
    have hle := le_alignUp
      (80 + 16 * s.numFiles + 16 * s.numAreas + 48 * s.numNodes
        + s.numStrBytes) (2 ^ k) (Nat.two_pow_pos k)
    rw [hRS]
    simp only [sizeofUint64]
    omega
  rw [ufsHeaderInit_fresh (2 ^ k) fs e p s (by omega) (by omega) (by omega)
    (by omega) hfresh hRS8]
  refine ⟨_, _, rfl, rfl, ?_⟩
  rw [ufsImageOpen_success _ p
    ⟨resolveSize (2 ^ k) s,
     mountHeader { zeroImage with lenWord := resolveSize (2 ^ k) s } s⟩
    noOpenFaults (fsGet_fsSet_self _ _ _) rfl rfl rfl hRS8]
  refine ⟨_, _, rfl, rfl, rfl, ?_, ?_, ?_, ?_, ?_⟩
  · exact (mountHeader_sizes
      { zeroImage with lenWord := resolveSize (2 ^ k) s } s).1
  · exact (mountHeader_sizes
      { zeroImage with lenWord := resolveSize (2 ^ k) s } s).2.1
  · exact (mountHeader_sizes
      { zeroImage with lenWord := resolveSize (2 ^ k) s } s).2.2.1
  · exact (mountHeader_sizes
      { zeroImage with lenWord := resolveSize (2 ^ k) s } s).2.2.2
  · exact ufsHeaderValidate_ok _
      (mountHeader { zeroImage with lenWord := resolveSize (2 ^ k) s } s)
      (mountHeader_magic _ _) (mountHeader_version _ _)

/-- Witness for the amended claim C1 at the concrete request `{1, 1, 1, 64}`,
page size 4096, empty filesystem, path `"img"`. -/
theorem ufsHeaderInit_open_roundTrip_witness :
    (0 : Nat) < 1 ∧ fsGet [] "img" = none ∧
    (∃ w1 img1, ufsHeaderInit 4096 ⟨[], 0⟩ (some "img") ⟨1, 1, 1, 64⟩
        noCreateFaults = (w1, some img1)
      ∧ w1.errno = UFS_NO_ERROR
      ∧ ∃ w2 img2, ufsImageOpen w1 (some "img") noOpenFaults = (w2, some img2)
        ∧ img2 = img1
        ∧ ufsHeaderGet img2 = ufsHeaderGet img1
        ∧ (ufsHeaderGet img2).sizesFile = 1
        ∧ (ufsHeaderGet img2).sizesArea = 1
        ∧ (ufsHeaderGet img2).sizesNode = 1
        ∧ (ufsHeaderGet img2).sizesString = 64
        ∧ ufsHeaderValidate w2 img2 = (w2, some img2)) :=
  ⟨by decide, rfl,
   ufsHeaderInit_open_roundTrip [] 0 "img" ⟨1, 1, 1, 64⟩ 4096 12
    (by norm_num) (by norm_num) (by norm_num) (by norm_num) (by norm_num)
    (by norm_num) (by norm_num) (by norm_num) (by norm_num) (by norm_num) rfl⟩

/-! ### Claim C2 -/

/-- Claim C2: `ufsHeaderValidate` returns the image unchanged (and leaves the
world unchanged) iff the magic number equals `UFS_MAGIC_NUMBER` and the
version equals `UFS_INDEX_VERSION`; wrong magic gives `UFS_IMAGE_IS_CORRUPTED`
and null, right magic with wrong version gives `UFS_VERSION_MISMATCH` and
null; the result is never an image other than the input; and no field besides
`magicNumber` and `version` influences acceptance or the error code. -/
theorem ufsHeaderValidate_magic_version_spec :
    (∀ w img, img.header.magicNumber = UFS_MAGIC_NUMBER →
      img.header.version = UFS_INDEX_VERSION →
      ufsHeaderValidate w img = (w, some img))
    ∧ (∀ w img, img.header.magicNumber ≠ UFS_MAGIC_NUMBER →
      ufsHeaderValidate w img =
        ({ w with errno := UFS_IMAGE_IS_CORRUPTED }, none))
    ∧ (∀ w img, img.header.magicNumber = UFS_MAGIC_NUMBER →
      img.header.version ≠ UFS_INDEX_VERSION →
      ufsHeaderValidate w img = ({ w with errno := UFS_VERSION_MISMATCH }, none))
    ∧ (∀ w img, (ufsHeaderValidate w img).2 = some img ↔
      (img.header.magicNumber = UFS_MAGIC_NUMBER ∧
       img.header.version = UFS_INDEX_VERSION))
    ∧ (∀ w img, (ufsHeaderValidate w img).2 = none ∨
      (ufsHeaderValidate w img).2 = some img)
    ∧ (∀ w img1 img2, img1.header.magicNumber = img2.header.magicNumber →
      img1.header.version = img2.header.version →
      (ufsHeaderValidate w img1).1 = (ufsHeaderValidate w img2).1 ∧
      (ufsHeaderValidate w img1).2.isSome = (ufsHeaderValidate w img2).2.isSome) := by
  refine ⟨ufsHeaderValidate_ok, ufsHeaderValidate_bad_magic,
    ufsHeaderValidate_bad_version, ?_, ufsHeaderValidate_none_or_self, ?_⟩
  · intro w img
    by_cases hm : img.header.magicNumber = UFS_MAGIC_NUMBER
    · by_cases hv : img.header.version = UFS_INDEX_VERSION
      · rw [ufsHeaderValidate_ok w img hm hv]
        simp [hm, hv]
      · rw [ufsHeaderValidate_bad_version w img hm hv]
        simp [hv]
    · rw [ufsHeaderValidate_bad_magic w img hm]
      simp [hm]
  · intro w img1 img2 hm hv
    by_cases h1 : img1.header.magicNumber = UFS_MAGIC_NUMBER
    · by_cases h2 : img1.header.version = UFS_INDEX_VERSION
      · rw [ufsHeaderValidate_ok w img1 h1 h2,
          ufsHeaderValidate_ok w img2 (hm ▸ h1) (hv ▸ h2)]
        exact ⟨rfl, rfl⟩
      · rw [ufsHeaderValidate_bad_version w img1 h1 h2,
          ufsHeaderValidate_bad_version w img2 (hm ▸ h1) (hv ▸ h2)]
        exact ⟨rfl, rfl⟩
    · rw [ufsHeaderValidate_bad_magic w img1 h1,
        ufsHeaderValidate_bad_magic w img2 (hm ▸ h1)]
      exact ⟨rfl, rfl⟩

/-- Witness for claim C2: a mounted header is accepted unchanged (even with a
nonzero incoming status word), the all-zero header is rejected as corrupted,
and a good-magic zero-version header is rejected as a version mismatch. -/
theorem ufsHeaderValidate_magic_version_spec_witness :
    ufsHeaderValidate ⟨[], 7⟩ (mountHeader zeroImage ⟨1, 1, 1, 64⟩)
      = (⟨[], 7⟩, some (mountHeader zeroImage ⟨1, 1, 1, 64⟩))
    ∧ ufsHeaderValidate ⟨[], 0⟩ zeroImage = (⟨[], UFS_IMAGE_IS_CORRUPTED⟩, none)
    ∧ ufsHeaderValidate ⟨[], 0⟩
        ⟨0, ⟨UFS_MAGIC_NUMBER, 0, 1, 1, 1, 64, 80, 96, 112, 160⟩, []⟩
      = (⟨[], UFS_VERSION_MISMATCH⟩, none) :=
  ⟨ufsHeaderValidate_magic_version_spec.1 ⟨[], 7⟩
    (mountHeader zeroImage ⟨1, 1, 1, 64⟩) rfl rfl,
   ufsHeaderValidate_magic_version_spec.2.1 ⟨[], 0⟩ zeroImage (by decide),
   ufsHeaderValidate_magic_version_spec.2.2.1 ⟨[], 0⟩
    ⟨0, ⟨UFS_MAGIC_NUMBER, 0, 1, 1, 1, 64, 80, 96, 112, 160⟩, []⟩ rfl
    (by decide)⟩

/-! ### Claim C3 -/

/-- Claim C3, counterexample to the universal statement: with the strictly
positive capacities `(2 ^ 60, 1, 1, 1)` the `uint64_t` computation wraps
(`16 * 2 ^ 60 = 2 ^ 64 ≡ 0`), so the image length no longer equals the
spec-described unbounded computation and the file table overlaps the area
table instead of preceding it. -/
theorem resolveSize_overflow_counterexample :
    0 < 2 ^ 60 ∧ (0 : Nat) < 1 ∧
    resolveSize 4096 ⟨2 ^ 60, 1, 1, 1⟩ = 4096 ∧
    resolveSize 4096 ⟨2 ^ 60, 1, 1, 1⟩ ≠ resolveSizeSpec 4096 ⟨2 ^ 60, 1, 1, 1⟩ ∧
    ¬ ((mountHeader zeroImage ⟨2 ^ 60, 1, 1, 1⟩).header.offsetsFile
        + sizeofUfsFileStruct * 2 ^ 60
        ≤ (mountHeader zeroImage ⟨2 ^ 60, 1, 1, 1⟩).header.offsetsArea) := by
  refine ⟨by norm_num, by norm_num, by decide, by decide, by decide⟩

/-- Claim C3 (amended with no-overflow bounds): for capacities that are
strictly positive and at most `2 ^ 50` and a power-of-two page size at most
`2 ^ 32`, `resolveSize` equals the spec-described computation
(`resolveSizeSpec`); the result is a multiple of the page size; the offsets
recorded by `mountHeader` place header, file table, area table, node table
and string arena in that order without overlap inside the image length; and
every successful `ufsHeaderInit` creates a file of exactly that length. -/
theorem resolveSize_layout_spec (s : ufsHeaderSizeRequestStruct)
    (pageSize k : Nat) (hp : pageSize = 2 ^ k) (hk : k ≤ 32)
    (h1 : 0 < s.numFiles) (h2 : 0 < s.numAreas) (h3 : 0 < s.numNodes)
    (h4 : 0 < s.numStrBytes)
    (hb1 : s.numFiles ≤ 2 ^ 50) (hb2 : s.numAreas ≤ 2 ^ 50)
    (hb3 : s.numNodes ≤ 2 ^ 50) (hb4 : s.numStrBytes ≤ 2 ^ 50) :
    resolveSize pageSize s = resolveSizeSpec pageSize s
    ∧ pageSize ∣ resolveSize pageSize s
    ∧ (∀ img : Image,
        ufsHeaderGetOffset + sizeofUfsHeaderStruct ≤
          (mountHeader img s).header.offsetsFile
        ∧ (mountHeader img s).header.offsetsFile
            + sizeofUfsFileStruct * s.numFiles ≤
          (mountHeader img s).header.offsetsArea
        ∧ (mountHeader img s).header.offsetsArea
            + sizeofUfsAreaStruct * s.numAreas ≤
          (mountHeader img s).header.offsetsNode
        ∧ (mountHeader img s).header.offsetsNode
            + sizeofUfsNodeStruct * s.numNodes ≤
          (mountHeader img s).header.offsetsString
        ∧ (mountHeader img s).header.offsetsString
            + sizeofChar * s.numStrBytes ≤ resolveSize pageSize s)
    ∧ (∀ fs e q flt w1 img,
        ufsHeaderInit pageSize ⟨fs, e⟩ (some q) s flt = (w1, some img) →
        ∃ f, fsGet w1.fs q = some f ∧ f.length = resolveSize pageSize s) := by
  subst hp
  have hRS := resolveSize_closed k s hk hb1 hb2 hb3 hb4
  have hSpec := resolveSizeSpec_closed (2 ^ k) s
  refine ⟨by rw [hRS, hSpec], ?_, ?_, ?_⟩
  · rw [hRS]
    exact alignUp_dvd _ _
  · intro img
    obtain ⟨o1, o2, o3, o4⟩ := mountHeader_offsets img s hb1 hb2 hb3
    rw [o1, o2, o3, o4, hRS]
    rw [show ufsHeaderGetOffset = 8 from by decide]
    simp only [sizeofUfsHeaderStruct, sizeofUfsFileStruct, sizeofUfsAreaStruct,
      sizeofUfsNodeStruct, sizeofChar, one_mul]
    refine ⟨by omega, by omega, by omega, by omega, ?_⟩
    exact le_alignUp _ _ (Nat.two_pow_pos k)
  · intro fs e q flt w1 img h
    obtain ⟨_, _, hget⟩ :=
      ufsHeaderInit_success_inv (2 ^ k) ⟨fs, e⟩ q s flt w1 img h
    exact ⟨_, hget, rfl⟩

/-- Witness for the amended claim C3 at the request `{1, 1, 1, 64}` with page
size 4096. -/
theorem resolveSize_layout_spec_witness :
    resolveSize 4096 ⟨1, 1, 1, 64⟩ = resolveSizeSpec 4096 ⟨1, 1, 1, 64⟩
    ∧ 4096 ∣ resolveSize 4096 ⟨1, 1, 1, 64⟩
    ∧ (ufsHeaderGetOffset + sizeofUfsHeaderStruct ≤
        (mountHeader zeroImage ⟨1, 1, 1, 64⟩).header.offsetsFile
      ∧ (mountHeader zeroImage ⟨1, 1, 1, 64⟩).header.offsetsFile
          + sizeofUfsFileStruct * 1 ≤
        (mountHeader zeroImage ⟨1, 1, 1, 64⟩).header.offsetsArea
      ∧ (mountHeader zeroImage ⟨1, 1, 1, 64⟩).header.offsetsArea
          + sizeofUfsAreaStruct * 1 ≤
        (mountHeader zeroImage ⟨1, 1, 1, 64⟩).header.offsetsNode
      ∧ (mountHeader zeroImage ⟨1, 1, 1, 64⟩).header.offsetsNode
          + sizeofUfsNodeStruct * 1 ≤
        (mountHeader zeroImage ⟨1, 1, 1, 64⟩).header.offsetsString
      ∧ (mountHeader zeroImage ⟨1, 1, 1, 64⟩).header.offsetsString
          + sizeofChar * 64 ≤ resolveSize 4096 ⟨1, 1, 1, 64⟩) :=
  ⟨(resolveSize_layout_spec ⟨1, 1, 1, 64⟩ 4096 12 (by norm_num) (by norm_num)
      (by norm_num) (by norm_num) (by norm_num) (by norm_num) (by norm_num)
      (by norm_num) (by norm_num) (by norm_num)).1,
   (resolveSize_layout_spec ⟨1, 1, 1, 64⟩ 4096 12 (by norm_num) (by norm_num)
      (by norm_num) (by norm_num) (by norm_num) (by norm_num) (by norm_num)
      (by norm_num) (by norm_num) (by norm_num)).2.1,
   (resolveSize_layout_spec ⟨1, 1, 1, 64⟩ 4096 12 (by norm_num) (by norm_num)
      (by norm_num) (by norm_num) (by norm_num) (by norm_num) (by norm_num)
      (by norm_num) (by norm_num) (by norm_num)).2.2.1 zeroImage⟩

/-! ### Claim C4 -/

/-- Claim C4: after every successful `ufsImageCreate(path, size)` the backing
file has length exactly `size`, its mapped content is the returned image, and
the 64-bit length word at offset 0 equals both `size` and the file length;
after every successful `ufsHeaderInit` the length word likewise equals the
on-disk file length. -/
theorem lengthWord_matches_file_length :
    (∀ w p size flt w1 img,
      ufsImageCreate w (some p) size flt = (w1, some img) →
      img.lenWord = size ∧
      ∃ f, fsGet w1.fs p = some f ∧ f.content = img ∧ f.length = size ∧
        img.lenWord = f.length)
    ∧ (∀ pageSize w p s flt w1 img,
      ufsHeaderInit pageSize w (some p) s flt = (w1, some img) →
      ∃ f, fsGet w1.fs p = some f ∧ f.content = img ∧
        img.lenWord = f.length) := by
  constructor
  · intro w p size flt w1 img h
    obtain ⟨h1, _, h3⟩ := ufsImageCreate_success_inv w p size flt w1 img h
    exact ⟨h1, ⟨size, img⟩, h3, rfl, rfl, h1⟩
  · intro pageSize w p s flt w1 img h
    obtain ⟨h1, _, h3⟩ := ufsHeaderInit_success_inv pageSize w p s flt w1 img h
    exact ⟨⟨resolveSize pageSize s, img⟩, h3, rfl, h1⟩

/-- Witness for claim C4: `ufsImageCreate` on a fresh path with size 128, and
`ufsHeaderInit` with request `{1, 1, 1, 64}` and page size 4096. -/
theorem lengthWord_matches_file_length_witness :
    (({ zeroImage with lenWord := 128 } : Image).lenWord = 128 ∧
      ∃ f, fsGet [("a", ⟨128, { zeroImage with lenWord := 128 }⟩)] "a" = some f
        ∧ f.content = { zeroImage with lenWord := 128 } ∧ f.length = 128 ∧
        ({ zeroImage with lenWord := 128 } : Image).lenWord = f.length)
    ∧ ∃ f, fsGet
        [("img", ⟨4096, mountHeader { zeroImage with lenWord := 4096 }
          ⟨1, 1, 1, 64⟩⟩)] "img" = some f
      ∧ f.content = mountHeader { zeroImage with lenWord := 4096 } ⟨1, 1, 1, 64⟩
      ∧ (mountHeader { zeroImage with lenWord := 4096 }
          ⟨1, 1, 1, 64⟩).lenWord = f.length :=
  ⟨lengthWord_matches_file_length.1 ⟨[], 0⟩ "a" 128 noCreateFaults
    ⟨[("a", ⟨128, { zeroImage with lenWord := 128 }⟩)], 0⟩
    { zeroImage with lenWord := 128 } (by decide),
   lengthWord_matches_file_length.2 4096 ⟨[], 0⟩ "img" ⟨1, 1, 1, 64⟩
    noCreateFaults
    ⟨[("img", ⟨4096, mountHeader { zeroImage with lenWord := 4096 }
      ⟨1, 1, 1, 64⟩⟩)], 0⟩
    (mountHeader { zeroImage with lenWord := 4096 } ⟨1, 1, 1, 64⟩)
    (by decide)⟩

/-! ### Claim C5 -/

/-- Claim C5, counterexample: a successful `ufsImageSync` returns `true` but
leaves the status word at its previous value (here `-7`) instead of setting
it — in particular it does not set `UFS_NO_ERROR` — so the claim that every
public operation of the image and header layers sets `ufsErrno` on every
path is false. -/
theorem ufsImageSync_success_errno_unchanged :
    (ufsImageSync ⟨[], -7⟩ zeroImage false).2 = true ∧
    (ufsImageSync ⟨[], -7⟩ zeroImage false).1.errno = -7 ∧
    ((-7 : Int) ≠ UFS_NO_ERROR) := by
  refine ⟨rfl, rfl, by decide⟩

/-- Claim C5 (amended): `ufsImageOpen` sets the status word on every path
(its entire result is independent of the incoming status), and so do
`ufsImageCreate` and `ufsHeaderInit` except on the path where `ftruncate`
fails, where they return null leaving the status unchanged;
`ufsHeaderValidate` sets the status on rejection but leaves it unchanged on
acceptance; `ufsImageSync` sets it only on failure (success leaves the world
untouched); and `ufsImageFree` never touches the world at all. -/
theorem ufs_status_word_discipline :
    (∀ fs e path flt,
      ufsImageOpen ⟨fs, e⟩ path flt = ufsImageOpen ⟨fs, 0⟩ path flt)
    ∧ (∀ fs e path size flt, flt.truncFail = false →
      ufsImageCreate ⟨fs, e⟩ path size flt = ufsImageCreate ⟨fs, 0⟩ path size flt)
    ∧ (∀ fs e p size flt, sizeofUint64 ≤ size → flt.openEacces = false →
      flt.openOther = false → flt.truncFail = true →
      (ufsImageCreate ⟨fs, e⟩ (some p) size flt).1.errno = e ∧
      (ufsImageCreate ⟨fs, e⟩ (some p) size flt).2 = none)
    ∧ (∀ pageSize fs e path s flt, flt.truncFail = false →
      ufsHeaderInit pageSize ⟨fs, e⟩ path s flt =
        ufsHeaderInit pageSize ⟨fs, 0⟩ path s flt)
    ∧ (∀ pageSize fs e p s flt, s.numFiles ≠ 0 → s.numAreas ≠ 0 →
      s.numNodes ≠ 0 → s.numStrBytes ≠ 0 → fsGet fs p = none →
      sizeofUint64 ≤ resolveSize pageSize s → flt.openEacces = false →
      flt.openOther = false → flt.truncFail = true →
      (ufsHeaderInit pageSize ⟨fs, e⟩ (some p) s flt).1.errno = e ∧
      (ufsHeaderInit pageSize ⟨fs, e⟩ (some p) s flt).2 = none)
    ∧ (∀ w img, ufsImageSync w img false = (w, true))
    ∧ (∀ w img, (ufsImageSync w img true).1.errno = UFS_IMAGE_COULD_NOT_SYNC ∧
      (ufsImageSync w img true).2 = false)
    ∧ (∀ w img, (ufsImageFree w img).1 = w)
    ∧ (∀ w img, img.header.magicNumber = UFS_MAGIC_NUMBER →
      img.header.version = UFS_INDEX_VERSION →
      ufsHeaderValidate w img = (w, some img))
    ∧ (∀ fs e1 e2 img, (ufsHeaderValidate ⟨fs, e1⟩ img).2 = none →
      (ufsHeaderValidate ⟨fs, e1⟩ img).1.errno =
        (ufsHeaderValidate ⟨fs, e2⟩ img).1.errno) := by
  refine ⟨ufsImageOpen_errno_indep, ufsImageCreate_errno_indep, ?_,
    ufsHeaderInit_errno_indep, ?_, fun w img => rfl,
    fun w img => ⟨rfl, rfl⟩, ?_, ufsHeaderValidate_ok, ?_⟩
  · intro fs e p size flt h8 he ho ht
    rw [ufsImageCreate_truncFail fs e p size flt h8 he ho ht]
    exact ⟨rfl, rfl⟩
  · intro pageSize fs e p s flt h1 h2 h3 h4 hfresh h8 he ho ht
    rw [ufsHeaderInit_truncFail pageSize fs e p s flt h1 h2 h3 h4 hfresh h8
      he ho ht]
    exact ⟨rfl, rfl⟩
  · intro w img
    cases img <;> rfl
  · intro fs e1 e2 img hnone
    by_cases hm : img.header.magicNumber = UFS_MAGIC_NUMBER
    · by_cases hv : img.header.version = UFS_INDEX_VERSION
      · rw [ufsHeaderValidate_ok ⟨fs, e1⟩ img hm hv] at hnone
        simp at hnone
      · rw [ufsHeaderValidate_bad_version ⟨fs, e1⟩ img hm hv,
          ufsHeaderValidate_bad_version ⟨fs, e2⟩ img hm hv]
    · rw [ufsHeaderValidate_bad_magic ⟨fs, e1⟩ img hm,
        ufsHeaderValidate_bad_magic ⟨fs, e2⟩ img hm]

/-- Witness for the amended claim C5: concrete instances of the
status-setting and status-preserving behaviours. -/
theorem ufs_status_word_discipline_witness :
    ufsImageOpen ⟨[], 5⟩ none noOpenFaults = ufsImageOpen ⟨[], 0⟩ none noOpenFaults
    ∧ ufsImageCreate ⟨[], 5⟩ (some "a") 128 noCreateFaults =
        ufsImageCreate ⟨[], 0⟩ (some "a") 128 noCreateFaults
    ∧ ((ufsImageCreate ⟨[], 5⟩ (some "a") 128 ⟨false, false, true, false⟩).1.errno
        = 5 ∧
      (ufsImageCreate ⟨[], 5⟩ (some "a") 128 ⟨false, false, true, false⟩).2
        = none)
    ∧ ((ufsHeaderInit 4096 ⟨[], 5⟩ (some "a") ⟨1, 1, 1, 64⟩
        ⟨false, false, true, false⟩).1.errno = 5 ∧
      (ufsHeaderInit 4096 ⟨[], 5⟩ (some "a") ⟨1, 1, 1, 64⟩
        ⟨false, false, true, false⟩).2 = none)
    ∧ ufsImageSync ⟨[], 5⟩ zeroImage false = (⟨[], 5⟩, true)
    ∧ (ufsImageFree ⟨[], 5⟩ (some zeroImage)).1 = ⟨[], 5⟩ :=
  ⟨ufs_status_word_discipline.1 [] 5 none noOpenFaults,
   ufs_status_word_discipline.2.1 [] 5 (some "a") 128 noCreateFaults rfl,
   ufs_status_word_discipline.2.2.1 [] 5 "a" 128 ⟨false, false, true, false⟩
    (by decide) rfl rfl rfl,
   ufs_status_word_discipline.2.2.2.2.1 4096 [] 5 "a" ⟨1, 1, 1, 64⟩
    ⟨false, false, true, false⟩ (by decide) (by decide) (by decide)
    (by decide) rfl (by decide) rfl rfl rfl,
   ufs_status_word_discipline.2.2.2.2.2.1 ⟨[], 5⟩ zeroImage,
   ufs_status_word_discipline.2.2.2.2.2.2.2.1 ⟨[], 5⟩ (some zeroImage)⟩

/-! ### Claim C6 -/

/-- Claim C6: `ufsImageOpen` fails with `UFS_IMAGE_DOES_NOT_EXIST` when no
file exists at the path, with `UFS_IMAGE_TOO_SMALL` when the file exists but
is smaller than the 8-byte length word (given that `open` and `fstat`
themselves succeed), with `UFS_UNKNOWN_ERROR` when `open`, `fstat` or `mmap`
fails, and on success maps the file shared and overwrites its first 8 bytes
with the on-disk file length, setting `UFS_NO_ERROR`. -/
theorem ufsImageOpen_error_and_success_spec :
    (∀ w p flt, fsGet w.fs p = none →
      ufsImageOpen w (some p) flt =
        ({ w with errno := UFS_IMAGE_DOES_NOT_EXIST }, none))
    ∧ (∀ w p f flt, fsGet w.fs p = some f → flt.openFail = false →
      flt.fstatFail = false → f.length < sizeofUint64 →
      ufsImageOpen w (some p) flt =
        ({ w with errno := UFS_IMAGE_TOO_SMALL }, none))
    ∧ (∀ w p f flt, fsGet w.fs p = some f →
      (flt.openFail = true ∨ flt.fstatFail = true ∨
        (sizeofUint64 ≤ f.length ∧ flt.mmapFail = true)) →
      ufsImageOpen w (some p) flt =
        ({ w with errno := UFS_UNKNOWN_ERROR }, none))
    ∧ (∀ w p f flt, fsGet w.fs p = some f → flt.openFail = false →
      flt.fstatFail = false → flt.mmapFail = false → sizeofUint64 ≤ f.length →
      ufsImageOpen w (some p) flt =
        (⟨fsSet w.fs p ⟨f.length, { f.content with lenWord := f.length }⟩,
          UFS_NO_ERROR⟩,
         some { f.content with lenWord := f.length })) := by
  refine ⟨ufsImageOpen_no_file, ?_, ufsImageOpen_io_fault, ?_⟩
  · intro w p f flt h ho hf hs
    exact ufsImageOpen_too_small w p f flt h ho hf hs
  · intro w p f flt h ho hf hm hs
    exact ufsImageOpen_success w p f flt h ho hf hm hs

/-- Witness for claim C6: the missing-file, too-small, faulting-syscall and
success branches at concrete inputs. -/
theorem ufsImageOpen_error_and_success_spec_witness :
    ufsImageOpen ⟨[], 0⟩ (some "nope") noOpenFaults =
      (⟨[], UFS_IMAGE_DOES_NOT_EXIST⟩, none)
    ∧ ufsImageOpen ⟨[("f", ⟨4, zeroImage⟩)], 0⟩ (some "f") noOpenFaults =
      (⟨[("f", ⟨4, zeroImage⟩)], UFS_IMAGE_TOO_SMALL⟩, none)
    ∧ ufsImageOpen ⟨[("f", ⟨128, zeroImage⟩)], 0⟩ (some "f")
        ⟨true, false, false⟩ =
      (⟨[("f", ⟨128, zeroImage⟩)], UFS_UNKNOWN_ERROR⟩, none)
    ∧ ufsImageOpen ⟨[("f", ⟨128, zeroImage⟩)], 0⟩ (some "f") noOpenFaults =
      (⟨[("f", ⟨128, { zeroImage with lenWord := 128 }⟩)], UFS_NO_ERROR⟩,
       some { zeroImage with lenWord := 128 }) :=
  ⟨ufsImageOpen_error_and_success_spec.1 ⟨[], 0⟩ "nope" noOpenFaults rfl,
   ufsImageOpen_error_and_success_spec.2.1 ⟨[("f", ⟨4, zeroImage⟩)], 0⟩ "f"
    ⟨4, zeroImage⟩ noOpenFaults (by decide) rfl rfl (by decide),
   ufsImageOpen_error_and_success_spec.2.2.1 ⟨[("f", ⟨128, zeroImage⟩)], 0⟩
    "f" ⟨128, zeroImage⟩ ⟨true, false, false⟩ (by decide) (Or.inl rfl),
   ufsImageOpen_error_and_success_spec.2.2.2 ⟨[("f", ⟨128, zeroImage⟩)], 0⟩
    "f" ⟨128, zeroImage⟩ noOpenFaults (by decide) rfl rfl rfl (by decide)⟩

/-! ### Claim C7 -/

/-- Claim C7: `ufsHeaderInit` fails with `UFS_BAD_CALL`, returning null and
leaving the filesystem untouched, when the path is null, when any capacity is
zero, or when a file already exists at the path; `ufsImageCreate` fails with
`UFS_BAD_CALL` when its path is null or its size is below 8, and with
`UFS_CANT_CREATE_FILE` when `open` fails with `EACCES`. -/
theorem ufs_badCall_rejections :
    (∀ pageSize w s flt, ufsHeaderInit pageSize w none s flt =
      ({ w with errno := UFS_BAD_CALL }, none))
    ∧ (∀ pageSize w p s flt,
      (s.numFiles = 0 ∨ s.numAreas = 0 ∨ s.numNodes = 0 ∨ s.numStrBytes = 0) →
      ufsHeaderInit pageSize w (some p) s flt =
        ({ w with errno := UFS_BAD_CALL }, none))
    ∧ (∀ pageSize w p s flt, (fsGet w.fs p).isSome = true →
      ufsHeaderInit pageSize w (some p) s flt =
        ({ w with errno := UFS_BAD_CALL }, none))
    ∧ (∀ w size flt, ufsImageCreate w none size flt =
      ({ w with errno := UFS_BAD_CALL }, none))
    ∧ (∀ w p size flt, size < sizeofUint64 →
      ufsImageCreate w (some p) size flt =
        ({ w with errno := UFS_BAD_CALL }, none))
    ∧ (∀ w p size flt, sizeofUint64 ≤ size → flt.openEacces = true →
      ufsImageCreate w (some p) size flt =
        ({ w with errno := UFS_CANT_CREATE_FILE }, none)) := by
  refine ⟨fun pageSize w s flt => rfl, ?_, ?_, fun w size flt => rfl, ?_, ?_⟩
  · intro pageSize w p s flt h
    simp [ufsHeaderInit, h]
  · intro pageSize w p s flt h
    rcases h' : fsGet w.fs p with _ | f
    · rw [h'] at h
      simp at h
    · by_cases hz : s.numFiles = 0 ∨ s.numAreas = 0 ∨ s.numNodes = 0 ∨
        s.numStrBytes = 0
      · simp [ufsHeaderInit, hz]
      · simp [ufsHeaderInit, hz, h']
  · intro w p size flt h
    simp [ufsImageCreate, h]
  · intro w p size flt h8 he
    simp [ufsImageCreate, Nat.not_lt.2 h8, he]

/-- Witness for claim C7: each rejection at a concrete input. -/
theorem ufs_badCall_rejections_witness :
    ufsHeaderInit 4096 ⟨[], 0⟩ none ⟨1, 1, 1, 64⟩ noCreateFaults =
      (⟨[], UFS_BAD_CALL⟩, none)
    ∧ ufsHeaderInit 4096 ⟨[], 0⟩ (some "p") ⟨0, 0, 0, 0⟩ noCreateFaults =
      (⟨[], UFS_BAD_CALL⟩, none)
    ∧ ufsHeaderInit 4096 ⟨[("p", ⟨128, zeroImage⟩)], 0⟩ (some "p")
        ⟨1, 1, 1, 64⟩ noCreateFaults =
      (⟨[("p", ⟨128, zeroImage⟩)], UFS_BAD_CALL⟩, none)
    ∧ ufsImageCreate ⟨[], 0⟩ none 128 noCreateFaults =
      (⟨[], UFS_BAD_CALL⟩, none)
    ∧ ufsImageCreate ⟨[], 0⟩ (some "p") 4 noCreateFaults =
      (⟨[], UFS_BAD_CALL⟩, none)
    ∧ ufsImageCreate ⟨[], 0⟩ (some "p") 128 ⟨true, false, false, false⟩ =
      (⟨[], UFS_CANT_CREATE_FILE⟩, none) :=
  ⟨ufs_badCall_rejections.1 4096 ⟨[], 0⟩ ⟨1, 1, 1, 64⟩ noCreateFaults,
   ufs_badCall_rejections.2.1 4096 ⟨[], 0⟩ "p" ⟨0, 0, 0, 0⟩ noCreateFaults
    (Or.inl rfl),
   ufs_badCall_rejections.2.2.1 4096 ⟨[("p", ⟨128, zeroImage⟩)], 0⟩ "p"
    ⟨1, 1, 1, 64⟩ noCreateFaults (by decide),
   ufs_badCall_rejections.2.2.2.1 ⟨[], 0⟩ 128 noCreateFaults,
   ufs_badCall_rejections.2.2.2.2.1 ⟨[], 0⟩ "p" 4 noCreateFaults (by decide),
   ufs_badCall_rejections.2.2.2.2.2 ⟨[], 0⟩ "p" 128
    ⟨true, false, false, false⟩ (by decide) rfl⟩

/-! ### Claim C8 -/

/-- Claim C8, counterexample: `ufsImageFree` applied to a null handle does
not return normally — the C code unconditionally executes
`size = *(uint64_t *)image;`, a null-pointer dereference, before `munmap`.
In the model the length-word load through a null handle is the fault value
`none`, so the call does not produce the normal return `some ()`. -/
theorem ufsImageFree_null_not_noop :
    derefLenWord none = none ∧
    (ufsImageFree ⟨[], 0⟩ none).2 ≠ some () := by
  exact ⟨rfl, by decide⟩

/-- Claim C8 (amended): `ufsImageFree` always reads the length word through
its argument before unmapping: on a non-null handle it returns normally and
leaves the world (filesystem and status word) unchanged, while on a null
handle the length-word load faults (`none`), so the call is not a no-op
return. -/
theorem ufsImageFree_reads_length_word :
    (∀ w img, ufsImageFree w (some img) = (w, some ()))
    ∧ (∀ w : World, (ufsImageFree w none).2 = none)
    ∧ (∀ w img, (ufsImageFree w img).1 = w) := by
  refine ⟨fun w img => rfl, fun w => rfl, ?_⟩
  intro w img
  cases img <;> rfl

/-! ### Claim C9 -/

/-- Claim C9: `ufsImageOpen` called with a null path returns null and sets
`UFS_BAD_CALL`, touching nothing else — in particular the filesystem is not
consulted (the result is the same for every filesystem state). -/
theorem ufsImageOpen_null_badCall :
    (∀ w flt, ufsImageOpen w none flt = ({ w with errno := UFS_BAD_CALL }, none))
    ∧ (∀ fs1 fs2 e flt, (ufsImageOpen ⟨fs1, e⟩ none flt).1.errno =
        (ufsImageOpen ⟨fs2, e⟩ none flt).1.errno ∧
      (ufsImageOpen ⟨fs1, e⟩ none flt).2 = (ufsImageOpen ⟨fs2, e⟩ none flt).2) :=
  ⟨fun w flt => rfl, fun fs1 fs2 e flt => ⟨rfl, rfl⟩⟩

/-! ### Claim C10 -/

/-- Claim C10: `ufsHeaderValidate` never writes to the image: the filesystem
(hence every byte of the shared mapping) is unchanged whether it accepts or
rejects, the image it returns on acceptance is exactly its input, and on
rejection the mapping is still present in the filesystem unchanged — nothing
is unmapped or freed. -/
theorem ufsHeaderValidate_frame :
    (∀ w img, (ufsHeaderValidate w img).1.fs = w.fs)
    ∧ (∀ w img, (ufsHeaderValidate w img).2 = none ∨
      (ufsHeaderValidate w img).2 = some img) :=
  ⟨ufsHeaderValidate_fs_frame, ufsHeaderValidate_none_or_self⟩
